import Mathlib

/-!
Shallow embedding of `pkg/exec` from qiffang/k8sutils.

The package is a thin client over the Kubernetes client-go library: it
builds an exec request for a pod (`ExecPod`), performs a pre-flight
authorization probe (`CanExec`), and builds an SPDY-capable transport
(`RoundTripperFor`).  External library calls (the REST `Create` call, the
executor factory, `Stream`, `TLSConfigFor`, `HTTPWrappersForConfig`) are
modelled as oracle environments: records of functions supplied by the
caller of the model, so that every possible behaviour of the library is
quantified over.
-/

namespace K8sUtils

/-- Go `time.Duration`, in nanoseconds. -/
abbrev Duration := Nat

/-- Go `time.Second` (nanoseconds). -/
def timeSecond : Duration := 1000000000

/-- Model of a Go `error` value as produced by `fmt.Errorf`.
`errorf msg` is a leaf error; `wrapf pre inner post` models
`fmt.Errorf("<pre>%w<post>", inner)`, which wraps `inner` (recoverable via
`errors.Unwrap` / matchable via `errors.Is`). -/
inductive GoError where
  | errorf (msg : String)
  | wrapf (pre : String) (inner : GoError) (post : String)
deriving DecidableEq, Repr

/-- The `Error()` message of a Go error. -/
def GoError.message : GoError → String
  | .errorf m => m
  | .wrapf pre inner post => pre ++ inner.message ++ post

/-- Go `errors.Unwrap`. -/
def GoError.unwrap : GoError → Option GoError
  | .errorf _ => none
  | .wrapf _ inner _ => some inner

/-- Go `errors.Is err target` (identity match along the unwrap chain). -/
def errorsIs : GoError → GoError → Bool
  | .errorf m, target => GoError.errorf m == target
  | .wrapf pre inner post, target =>
      GoError.wrapf pre inner post == target || errorsIs inner target

/-- Model of `rest.Config`.  Only the `Proxy` field is inspected by this
package; `Proxy` is a function pointer in Go, modelled as an abstract
handle (`none` = nil).  `rest` stands for all remaining fields, passed
through opaquely to the library. -/
structure RestConfig where
  Proxy : Option Nat
  rest : Nat
deriving DecidableEq, Repr

/-- Abstract handle for a `*tls.Config` produced by `restclient.TLSConfigFor`. -/
abbrev TLSConfig := Nat

/-- Abstract handle for an `http.RoundTripper` wrapper produced by
`restclient.HTTPWrappersForConfig`. -/
abbrev RoundTripper := Nat

/-- The proxier selected in `RoundTripperFor`: either
`http.ProxyFromEnvironment` or the caller-supplied `config.Proxy`. -/
inductive Proxier where
  | fromEnvironment
  | custom (f : Nat)
deriving DecidableEq, Repr

/-- Model of `spdy.RoundTripperConfig`.  `spdy.NewRoundTripperWithConfig`
returns a round tripper fully determined by this config, so the upgrader
is identified with its config. -/
structure SpdyRoundTripperConfig where
  TLS : TLSConfig
  FollowRedirects : Bool
  RequireSameHostRedirects : Bool
  Proxier : Proxier
  PingPeriod : Duration
deriving DecidableEq, Repr

/-- `spdy.NewRoundTripperWithConfig`: the upgrader is its config. -/
def newRoundTripperWithConfig (cfg : SpdyRoundTripperConfig) : SpdyRoundTripperConfig :=
  cfg

/-- Oracle environment for the external transport-building calls used by
`RoundTripperFor`. -/
structure TransportEnv where
  tlsConfigFor : RestConfig → Except GoError TLSConfig
  httpWrappersForConfig : RestConfig → SpdyRoundTripperConfig → Except GoError RoundTripper

/-- `RoundTripperFor` from `pkg/exec/exec.go`: builds the TLS config, picks
the proxier (`config.Proxy` when non-nil, else the environment proxy),
builds the SPDY upgrade round tripper, and wraps it for the config. -/
def RoundTripperFor (env : TransportEnv) (config : RestConfig) :
    Except GoError (RoundTripper × SpdyRoundTripperConfig) :=
  match env.tlsConfigFor config with
  | .error err => .error err
  | .ok tlsConfig =>
    let proxy : Proxier :=
      match config.Proxy with
      | some p => Proxier.custom p
      | none => Proxier.fromEnvironment
    let upgradeRoundTripper := newRoundTripperWithConfig
      { TLS := tlsConfig
        FollowRedirects := true
        RequireSameHostRedirects := false
        Proxier := proxy
        PingPeriod := 0 }
    match env.httpWrappersForConfig config upgradeRoundTripper with
    | .error err => .error err
    | .ok wrapper => .ok (wrapper, upgradeRoundTripper)

/-- `ClientOpt` from `pkg/exec/client.go`. -/
structure ClientOpt where
  K8sConfig : RestConfig
  PodName : String
  ContainerName : String
  Namespace : String
  CurrentContext : String
deriving DecidableEq, Repr

/-- `Client` from `pkg/exec/client.go`: an embedded `kubernetes.Interface`
(abstract handle; its behaviour is supplied by oracle environments) plus
the embedded `*ClientOpt` whose fields are promoted. -/
structure Client extends ClientOpt where
  clientset : Nat
deriving DecidableEq, Repr

/-- `corev1.PodExecOptions` as populated by `ExecPod`. -/
structure PodExecOptions where
  Container : String
  Command : List String
  Stdin : Bool
  Stdout : Bool
  Stderr : Bool
  TTY : Bool
deriving DecidableEq, Repr

/-- The REST exec request assembled by `ExecPod` through the builder chain
`Post().Resource("pods").Namespace(..).Name(..).SubResource("exec")
.Timeout(timeout).VersionedParams(..)`. -/
structure ExecRequest where
  method : String
  resource : String
  ns : String
  name : String
  subresource : String
  timeout : Duration
  params : PodExecOptions
deriving DecidableEq, Repr

/-- `remotecommand.StreamOptions` as populated by `ExecPod`.  The Go
streams (`io.Reader` / `io.Writer`) are abstract handles; `none` = nil. -/
structure StreamOptions where
  Stdin : Option Nat
  Stdout : Option Nat
  Stderr : Option Nat
  Tty : Bool
deriving DecidableEq, Repr

/-- Abstract handle for a `remotecommand.Executor`. -/
abbrev Executor := Nat

/-- Oracle environment for the external calls made by `ExecPod`:
`newExecutor` (the SPDY executor factory, taking the config, the method
and the request URL — identified with the request that determines it) and
`Stream` on the resulting executor. -/
structure ExecEnv where
  newExecutor : RestConfig → String → ExecRequest → Except GoError Executor
  stream : Executor → StreamOptions → Option GoError

/-- The exec request `ExecPod` builds, field for field from the source. -/
def execPodRequest (c : Client) (command : List String)
    (stdin stdout stderr : Option Nat) (tty : Bool) (timeout : Duration) :
    ExecRequest :=
  { method := "POST"
    resource := "pods"
    ns := c.Namespace
    name := c.PodName
    subresource := "exec"
    timeout := timeout
    params :=
      { Container := c.ContainerName
        Command := command
        Stdin := stdin.isSome
        Stdout := stdout.isSome
        Stderr := stderr.isSome
        TTY := tty } }

/-- Observable trace of one `ExecPod` call: the request handed to the
executor factory, whether `Stream` was invoked, and the returned error
(`none` = nil). -/
structure ExecPodTrace where
  sentRequest : ExecRequest
  streamInvoked : Bool
  result : Option GoError
deriving DecidableEq, Repr

/-- `ExecPod` from `pkg/exec/exec.go`.  The Go method takes the client by
pointer and never assigns through it, so the state-passing translation
returns the client it was given alongside the trace. -/
def ExecPod (env : ExecEnv) (c : Client) (command : List String)
    (stdin stdout stderr : Option Nat) (tty : Bool) (timeout : Duration) :
    Client × ExecPodTrace :=
  let execRequest := execPodRequest c command stdin stdout stderr tty timeout
  match env.newExecutor c.K8sConfig "POST" execRequest with
  | .error err =>
      (c, ⟨execRequest, false, some (.wrapf "failed to set up executor: " err "")⟩)
  | .ok exec =>
      match env.stream exec ⟨stdin, stdout, stderr, tty⟩ with
      | some err =>
          (c, ⟨execRequest, true, some (.wrapf "failed to exec command: " err "")⟩)
      | none => (c, ⟨execRequest, true, none⟩)

/-- `authzv1.ResourceAttributes`. -/
structure ResourceAttributes where
  Namespace : String
  Verb : String
  Group : String
  Resource : String
  Subresource : String
  Name : String
deriving DecidableEq, Repr

/-- `authzv1.SelfSubjectAccessReviewSpec` (`ResourceAttributes` is a
pointer in Go; `none` = nil). -/
structure SelfSubjectAccessReviewSpec where
  ResourceAttributes : Option ResourceAttributes
deriving DecidableEq, Repr

/-- `authzv1.SubjectAccessReviewStatus`, restricted to the fields this
package reads. -/
structure SubjectAccessReviewStatus where
  Allowed : Bool
  Reason : String
deriving DecidableEq, Repr

/-- `authzv1.SelfSubjectAccessReview`: spec plus (response) status. -/
structure SelfSubjectAccessReview where
  Spec : SelfSubjectAccessReviewSpec
  Status : SubjectAccessReviewStatus
deriving DecidableEq, Repr

/-- Oracle environment for `SelfSubjectAccessReviews().Create`: it
receives the context timeout and the submitted review and returns the
response or a transport error. -/
structure AuthEnv where
  createSelfSubjectAccessReview :
    Duration → SelfSubjectAccessReview → Except GoError SelfSubjectAccessReview

/-- `deniedCreateExecErr` from `pkg/exec/exec.go`. -/
def deniedCreateExecErr : GoError :=
  .errorf "no permissions to create exec subresource"

/-- The `SelfSubjectAccessReview` built by `CanExec`, field for field from
the source (the `Status` of a freshly built review is the Go zero value). -/
def canExecReview (c : Client) : SelfSubjectAccessReview :=
  { Spec :=
      { ResourceAttributes := some
          { Namespace := c.Namespace
            Verb := "create"
            Group := ""
            Resource := "pods"
            Subresource := "exec"
            Name := "" } }
    Status := { Allowed := false, Reason := "" } }

/-- The context timeout `CanExec` uses: `context.WithTimeout(.., 10*time.Second)`. -/
def canExecTimeout : Duration := 10 * timeSecond

/-- Observable trace of one `CanExec` call: the context timeout, the
submitted review, and the returned error (`none` = nil). -/
structure CanExecTrace where
  ctxTimeout : Duration
  sentReview : SelfSubjectAccessReview
  result : Option GoError
deriving DecidableEq, Repr

/-- `CanExec` from `pkg/exec/exec.go`: submits the access review under the
fixed 10-second context and maps the response to an error as the source
does.  Like `ExecPod`, the client is returned unmodified. -/
def CanExec (env : AuthEnv) (c : Client) : Client × CanExecTrace :=
  match env.createSelfSubjectAccessReview canExecTimeout (canExecReview c) with
  | .error err => (c, ⟨canExecTimeout, canExecReview c, some err⟩)
  | .ok response =>
      if !response.Status.Allowed then
        if response.Status.Reason ≠ "" then
          (c, ⟨canExecTimeout, canExecReview c,
            some (.wrapf "" deniedCreateExecErr (". reason: " ++ response.Status.Reason))⟩)
        else
          (c, ⟨canExecTimeout, canExecReview c, some deniedCreateExecErr⟩)
      else
        (c, ⟨canExecTimeout, canExecReview c, none⟩)

/-! ## Concrete values used by witnesses -/

/-- A sample `rest.Config` with nil `Proxy`. -/
def sampleConfig : RestConfig := ⟨none, 0⟩

/-- A sample client. -/
def sampleClient : Client := ⟨⟨sampleConfig, "mypod", "mycontainer", "myns", "myctx"⟩, 0⟩

/-- A denied access-review response carrying a reason. -/
def reviewDeniedNope : SelfSubjectAccessReview := ⟨⟨none⟩, ⟨false, "nope"⟩⟩

/-- A denied access-review response with an empty reason. -/
def reviewDeniedSilent : SelfSubjectAccessReview := ⟨⟨none⟩, ⟨false, ""⟩⟩

/-- An allowed access-review response. -/
def reviewAllowed : SelfSubjectAccessReview := ⟨⟨none⟩, ⟨true, ""⟩⟩

/-- Auth oracle that always answers denied-with-reason. -/
def authEnvDeniedNope : AuthEnv := ⟨fun _ _ => .ok reviewDeniedNope⟩

/-- Auth oracle that always answers denied with no reason. -/
def authEnvDeniedSilent : AuthEnv := ⟨fun _ _ => .ok reviewDeniedSilent⟩

/-- Auth oracle that always answers allowed. -/
def authEnvAllowed : AuthEnv := ⟨fun _ _ => .ok reviewAllowed⟩

/-- Transport oracle whose external calls always succeed. -/
def transportEnvOk : TransportEnv := ⟨fun _ => .ok 7, fun _ _ => .ok 3⟩

/-! ## Theorems -/

/-- C1: for every authorization response delivered without transport error
whose `Status.Allowed` is false, `CanExec` returns a non-nil error, and
when `Status.Reason` is non-empty the error message contains that reason
(as a substring: the message is `p ++ reason ++ q` for some `p`, `q`). -/
theorem canExec_denied_error (env : AuthEnv) (c : Client)
    (resp : SelfSubjectAccessReview)
    (hok : env.createSelfSubjectAccessReview canExecTimeout (canExecReview c) = .ok resp)
    (hden : resp.Status.Allowed = false) :
    ∃ e, (CanExec env c).2.result = some e ∧
      (resp.Status.Reason ≠ "" →
        ∃ p q, e.message = p ++ resp.Status.Reason ++ q) := by
  by_cases hr : resp.Status.Reason = ""
  · refine ⟨deniedCreateExecErr, ?_, ?_⟩
    · simp [CanExec, hok, hden, hr]
    · intro h; exact absurd hr h
  · refine ⟨.wrapf "" deniedCreateExecErr (". reason: " ++ resp.Status.Reason), ?_, ?_⟩
    · simp [CanExec, hok, hden, hr]
    · intro _
      refine ⟨"no permissions to create exec subresource" ++ ". reason: ", "", ?_⟩
      simp only [GoError.message, deniedCreateExecErr, String.empty_append,
        String.append_empty]
      rw [← String.append_assoc]

/-- Witness for C1 at a concrete denied-with-reason environment. -/
theorem canExec_denied_error_witness :
    ∃ e, (CanExec authEnvDeniedNope sampleClient).2.result = some e ∧
      (reviewDeniedNope.Status.Reason ≠ "" →
        ∃ p q, e.message = p ++ reviewDeniedNope.Status.Reason ++ q) :=
  canExec_denied_error authEnvDeniedNope sampleClient reviewDeniedNope rfl rfl

/-- C3: an allowed authorization response delivered without transport
error makes `CanExec` return nil. -/
theorem canExec_allowed_no_error (env : AuthEnv) (c : Client)
    (resp : SelfSubjectAccessReview)
    (hok : env.createSelfSubjectAccessReview canExecTimeout (canExecReview c) = .ok resp)
    (hall : resp.Status.Allowed = true) :
    (CanExec env c).2.result = none := by
  simp [CanExec, hok, hall]

/-- Witness for C3 at a concrete allowing environment. -/
theorem canExec_allowed_no_error_witness :
    (CanExec authEnvAllowed sampleClient).2.result = none :=
  canExec_allowed_no_error authEnvAllowed sampleClient reviewAllowed rfl rfl

/-- C6: every `CanExec` call issues its query under the fixed 10-second
context timeout, independent of the client and of the cluster's
behaviour. -/
theorem canExec_fixed_timeout (env : AuthEnv) (c : Client) :
    (CanExec env c).2.ctxTimeout = 10 * timeSecond := by
  unfold CanExec
  split
  · rfl
  · split_ifs <;> rfl

/-- C8: the access review submitted by `CanExec` always carries verb
"create", resource "pods", subresource "exec", empty group, the client's
configured namespace, and an empty resource name. -/
theorem canExec_review_shape (env : AuthEnv) (c : Client) :
    (CanExec env c).2.sentReview.Spec.ResourceAttributes =
      some ⟨c.Namespace, "create", "", "pods", "exec", ""⟩ := by
  unfold CanExec
  split
  · rfl
  · split_ifs <;> rfl

/-- C9: when the response is denied, the error returned by `CanExec`
matches `deniedCreateExecErr` under `errors.Is`; with an empty reason it
is exactly the sentinel `deniedCreateExecErr`. -/
theorem canExec_denied_sentinel (env : AuthEnv) (c : Client)
    (resp : SelfSubjectAccessReview)
    (hok : env.createSelfSubjectAccessReview canExecTimeout (canExecReview c) = .ok resp)
    (hden : resp.Status.Allowed = false) :
    ∃ e, (CanExec env c).2.result = some e ∧
      errorsIs e deniedCreateExecErr = true ∧
      (resp.Status.Reason = "" → e = deniedCreateExecErr) := by
  by_cases hr : resp.Status.Reason = ""
  · refine ⟨deniedCreateExecErr, ?_, ?_, fun _ => rfl⟩
    · simp [CanExec, hok, hden, hr]
    · simp [errorsIs, deniedCreateExecErr]
  · refine ⟨.wrapf "" deniedCreateExecErr (". reason: " ++ resp.Status.Reason), ?_, ?_, ?_⟩
    · simp [CanExec, hok, hden, hr]
    · simp [errorsIs, deniedCreateExecErr]
    · intro h; exact absurd h hr

/-- Witness for C9 at a concrete denied-without-reason environment. -/
theorem canExec_denied_sentinel_witness :
    ∃ e, (CanExec authEnvDeniedSilent sampleClient).2.result = some e ∧
      errorsIs e deniedCreateExecErr = true ∧
      (reviewDeniedSilent.Status.Reason = "" → e = deniedCreateExecErr) :=
  canExec_denied_sentinel authEnvDeniedSilent sampleClient reviewDeniedSilent rfl rfl

/-- Helper: whatever the executor factory and the stream do, the request
`ExecPod` hands to the factory is `execPodRequest`. -/
theorem execPod_sentRequest (env : ExecEnv) (c : Client) (command : List String)
    (stdin stdout stderr : Option Nat) (tty : Bool) (timeout : Duration) :
    (ExecPod env c command stdin stdout stderr tty timeout).2.sentRequest =
      execPodRequest c command stdin stdout stderr tty timeout := by
  simp only [ExecPod]
  split
  · rfl
  · split <;> rfl

/-- C2: the `PodExecOptions` placed on the exec request have `Stdin`,
`Stdout`, `Stderr` true exactly when the corresponding argument is
non-nil, and `TTY` equal to the `tty` argument. -/
theorem execPod_stream_flags (env : ExecEnv) (c : Client) (command : List String)
    (stdin stdout stderr : Option Nat) (tty : Bool) (timeout : Duration) :
    ((ExecPod env c command stdin stdout stderr tty timeout).2.sentRequest.params.Stdin
        = true ↔ stdin ≠ none) ∧
    ((ExecPod env c command stdin stdout stderr tty timeout).2.sentRequest.params.Stdout
        = true ↔ stdout ≠ none) ∧
    ((ExecPod env c command stdin stdout stderr tty timeout).2.sentRequest.params.Stderr
        = true ↔ stderr ≠ none) ∧
    (ExecPod env c command stdin stdout stderr tty timeout).2.sentRequest.params.TTY
        = tty := by
  rw [execPod_sentRequest]
  refine ⟨?_, ?_, ?_, rfl⟩ <;>
    simp [execPodRequest, Option.isSome_iff_ne_none]

/-- C5: the caller-supplied timeout is set on the exec request, and
`ExecPod` returns nil exactly when the executor factory succeeds and the
stream completes without error. -/
theorem execPod_timeout_and_result (env : ExecEnv) (c : Client) (command : List String)
    (stdin stdout stderr : Option Nat) (tty : Bool) (timeout : Duration) :
    (ExecPod env c command stdin stdout stderr tty timeout).2.sentRequest.timeout
        = timeout ∧
    ((ExecPod env c command stdin stdout stderr tty timeout).2.result = none ↔
      ∃ exec, env.newExecutor c.K8sConfig "POST"
          (execPodRequest c command stdin stdout stderr tty timeout) = .ok exec ∧
        env.stream exec ⟨stdin, stdout, stderr, tty⟩ = none) := by
  constructor
  · rw [execPod_sentRequest]; rfl
  · simp only [ExecPod]
    split
    next err heq => simp [heq]
    next exec heq =>
      split
      next err hs => simp [heq, hs]
      next hs => simp [heq, hs]

/-- C4: a failed executor setup yields the library error wrapped as
"failed to set up executor" with `Stream` never invoked; a failed stream
yields the library error wrapped as "failed to exec command"; in both
cases the underlying error is recoverable by unwrapping; and a failed
authorization request is returned by `CanExec` verbatim.  No branch
retries or recovers locally. -/
theorem exec_errors_surfaced (env : ExecEnv) (aenv : AuthEnv) (c : Client)
    (command : List String) (stdin stdout stderr : Option Nat) (tty : Bool)
    (timeout : Duration) :
    (∀ err, env.newExecutor c.K8sConfig "POST"
        (execPodRequest c command stdin stdout stderr tty timeout) = .error err →
      (ExecPod env c command stdin stdout stderr tty timeout).2.result =
          some (.wrapf "failed to set up executor: " err "") ∧
      (ExecPod env c command stdin stdout stderr tty timeout).2.streamInvoked = false ∧
      (GoError.wrapf "failed to set up executor: " err "").unwrap = some err) ∧
    (∀ exec err, env.newExecutor c.K8sConfig "POST"
        (execPodRequest c command stdin stdout stderr tty timeout) = .ok exec →
      env.stream exec ⟨stdin, stdout, stderr, tty⟩ = some err →
      (ExecPod env c command stdin stdout stderr tty timeout).2.result =
          some (.wrapf "failed to exec command: " err "") ∧
      (GoError.wrapf "failed to exec command: " err "").unwrap = some err) ∧
    (∀ err, aenv.createSelfSubjectAccessReview canExecTimeout (canExecReview c)
        = .error err →
      (CanExec aenv c).2.result = some err) := by
  refine ⟨?_, ?_, ?_⟩
  · intro err heq
    refine ⟨?_, ?_, rfl⟩ <;> simp [ExecPod, heq]
  · intro exec err heq hs
    refine ⟨?_, rfl⟩
    simp [ExecPod, heq, hs]
  · intro err heq
    simp [CanExec, heq]

/-- C7: neither operation modifies the client: `ExecPod` and `CanExec`
return the client exactly as given (so every configuration field is equal
before and after), and namespace, pod name and container name are passed
through unchanged into the request builders. -/
theorem client_config_unchanged (env : ExecEnv) (aenv : AuthEnv) (c : Client)
    (command : List String) (stdin stdout stderr : Option Nat) (tty : Bool)
    (timeout : Duration) :
    (ExecPod env c command stdin stdout stderr tty timeout).1 = c ∧
    (CanExec aenv c).1 = c ∧
    (ExecPod env c command stdin stdout stderr tty timeout).2.sentRequest.ns
        = c.Namespace ∧
    (ExecPod env c command stdin stdout stderr tty timeout).2.sentRequest.name
        = c.PodName ∧
    (ExecPod env c command stdin stdout stderr tty
        timeout).2.sentRequest.params.Container = c.ContainerName ∧
    ((CanExec aenv c).2.sentReview.Spec.ResourceAttributes.map
        ResourceAttributes.Namespace) = some c.Namespace := by
  refine ⟨?_, ?_, ?_, ?_, ?_, ?_⟩
  · simp only [ExecPod]
    split
    · rfl
    · split <;> rfl
  · unfold CanExec
    split
    · rfl
    · split_ifs <;> rfl
  · rw [execPod_sentRequest]; rfl
  · rw [execPod_sentRequest]; rfl
  · rw [execPod_sentRequest]; rfl
  · unfold CanExec
    split
    · rfl
    · split_ifs <;> rfl

/-- C10: when `RoundTripperFor` succeeds, the SPDY upgrade round tripper
it built uses `config.Proxy` as proxier when that is non-nil and the
environment-based proxy otherwise, and always has `FollowRedirects` true,
`RequireSameHostRedirects` false, and a zero ping period. -/
theorem roundTripperFor_transport (env : TransportEnv) (config : RestConfig)
    (w : RoundTripper) (u : SpdyRoundTripperConfig)
    (h : RoundTripperFor env config = .ok (w, u)) :
    (config.Proxy = none → u.Proxier = Proxier.fromEnvironment) ∧
    (∀ p, config.Proxy = some p → u.Proxier = Proxier.custom p) ∧
    u.FollowRedirects = true ∧
    u.RequireSameHostRedirects = false ∧
    u.PingPeriod = 0 := by
  simp only [RoundTripperFor, newRoundTripperWithConfig] at h
  split at h
  · exact absurd h (by simp)
  · split at h
    · exact absurd h (by simp)
    · rename_i wrapper hw
      rw [Except.ok.injEq, Prod.mk.injEq] at h
      obtain ⟨-, hu⟩ := h
      subst hu
      refine ⟨?_, ?_, rfl, rfl, rfl⟩
      · intro hp; simp [hp]
      · intro p hp; simp [hp]

/-- Witness for C10 at a concrete config with nil `Proxy` and an
all-succeeding transport oracle. -/
theorem roundTripperFor_transport_witness :
    (sampleConfig.Proxy = none →
      (newRoundTripperWithConfig
        { TLS := 7, FollowRedirects := true, RequireSameHostRedirects := false,
          Proxier := Proxier.fromEnvironment, PingPeriod := 0 }).Proxier
        = Proxier.fromEnvironment) ∧
    (∀ p, sampleConfig.Proxy = some p →
      (newRoundTripperWithConfig
        { TLS := 7, FollowRedirects := true, RequireSameHostRedirects := false,
          Proxier := Proxier.fromEnvironment, PingPeriod := 0 }).Proxier
        = Proxier.custom p) ∧
    (newRoundTripperWithConfig
      { TLS := 7, FollowRedirects := true, RequireSameHostRedirects := false,
        Proxier := Proxier.fromEnvironment, PingPeriod := 0 }).FollowRedirects = true ∧
    (newRoundTripperWithConfig
      { TLS := 7, FollowRedirects := true, RequireSameHostRedirects := false,
        Proxier := Proxier.fromEnvironment, PingPeriod := 0 }).RequireSameHostRedirects
      = false ∧
    (newRoundTripperWithConfig
      { TLS := 7, FollowRedirects := true, RequireSameHostRedirects := false,
        Proxier := Proxier.fromEnvironment, PingPeriod := 0 }).PingPeriod = 0 :=
  roundTripperFor_transport transportEnvOk sampleConfig 3
    { TLS := 7, FollowRedirects := true, RequireSameHostRedirects := false,
      Proxier := Proxier.fromEnvironment, PingPeriod := 0 } rfl

end K8sUtils
